import Mathlib

/-!
# Verification of the face2phrase interview-analysis application

Shallow embedding of the parts of the repository that the claims of the specification concern, together with theorems settling each claim.

The directory `src/` of the repository contains the React frontend (session history storage,
local authentication, the analysis dashboard and its completion/overview
computations).  The Python analysis backend (session orchestrator, acoustic and
facial extractors, report synthesizer, session aggregator) is not part of
`src/`; where a claim is decided by that missing backend, the corresponding
definitions are modelled from the specification and carry a doc comment
starting with `Modelled from the spec:`.

Numbers manipulated by the JavaScript/Python code are modelled as `Rat`
(exact rationals standing for the floating-point values of the programs); wall-clock
times are modelled as `Nat` milliseconds.
-/

namespace Face2Phrase

/-! ## localStorage model

`InterviewInterface.finalizeInterview` and the Dashboard of `src/unnamed/part_008`
interact through the browser localStorage.  Both touched keys
(`sessionHistory`, `interview_history`) hold JSON arrays of session records, so
the store is modelled as an association list from key to a list of records;
`JSON.parse(localStorage.getItem(k) or [])` is `histGet`, and
`localStorage.setItem(k, JSON.stringify(v))` is `histSet`. -/

/-- One session record as written by `finalizeInterview`
(`InterviewInterface.js:208-214`): `sessionId`, `position`, `timestamp`,
`questions` count; the per-question acoustic payloads kept in `acousticData`
are carried as opaque strings keyed by question index. -/
structure SessionData where
  sessionId : String
  position : String
  timestamp : String
  questions : Nat
  acousticData : List (Nat × String)
deriving DecidableEq, Repr

/-- The browser localStorage restricted to the history-shaped keys the
interview flow and the dashboards use. -/
abbrev HistStore := List (String × List SessionData)

/-- Reading a key: `JSON.parse` of `localStorage.getItem(key)` with default `[]`. -/
def histGet (store : HistStore) (key : String) : List SessionData :=
  ((store.find? (fun p => p.1 == key)).map Prod.snd).getD []

/-- `localStorage.setItem(key, JSON.stringify(v))`: the key now maps to `v`. -/
def histSet (store : HistStore) (key : String) (v : List SessionData) : HistStore :=
  (key, v) :: store.filter (fun p => p.1 != key)

/-- The storage effect of `finalizeInterview` (`InterviewInterface.js:216-218`):
read `sessionHistory` (default `[]`), `unshift` the new session record
(prepend), write it back under `sessionHistory`. -/
def finalizeSaveHistory (store : HistStore) (sd : SessionData) : HistStore :=
  histSet store "sessionHistory" (sd :: histGet store "sessionHistory")

/-- The Dashboard of `src/unnamed/part_008` (lines 30-31) loads its interview
history exclusively from the `interview_history` key. -/
def dashboardInterviewHistory (store : HistStore) : List SessionData :=
  histGet store "interview_history"

/-- Dashboard stat `Total Interviews` (`part_008` line 43). -/
def dashboardTotalInterviews (store : HistStore) : Nat :=
  (dashboardInterviewHistory store).length

/-- Dashboard stat `Time Practiced` in minutes (`part_008` line 59). -/
def dashboardTimePracticed (store : HistStore) : Nat :=
  dashboardTotalInterviews store * 15

/-- Lemma: after `histSet store k v`, reading `k` yields `v`. -/
theorem histGet_histSet_same (store : HistStore) (k : String) (v : List SessionData) :
    histGet (histSet store k v) k = v := by
  simp [histGet, histSet, List.find?]

/-- Lemma: filtering out the entries with key `k` does not change the first
entry found for a different key `k'`. -/
theorem find?_key_filter (l : HistStore) (k k' : String) (h : k' ≠ k) :
    (l.filter (fun p => p.1 != k)).find? (fun p => p.1 == k') =
      l.find? (fun p => p.1 == k') := by
  induction l with
  | nil => rfl
  | cons p rest ih =>
      by_cases hq : p.1 = k'
      · have h1 : (p.1 != k) = true := by simp [hq, h]
        have h2 : (p.1 == k') = true := by simp [hq]
        simp [List.filter_cons, h1, List.find?_cons, h2]
      · have h2 : (p.1 == k') = false := by simp [hq]
        by_cases hp : p.1 = k
        · have h1 : (p.1 != k) = false := by simp [hp]
          simp [List.filter_cons, h1, List.find?_cons, h2, ih]
        · have h1 : (p.1 != k) = true := by simp [hp]
          simp [List.filter_cons, h1, List.find?_cons, h2, ih]

/-- Lemma: `histSet` at key `k` leaves every other key unchanged. -/
theorem histGet_histSet_other (store : HistStore) (k k' : String) (v : List SessionData)
    (h : k' ≠ k) : histGet (histSet store k v) k' = histGet store k' := by
  have hbeq : (k == k') = false := by
    simp only [beq_eq_false_iff_ne]
    exact fun he => h he.symm
  simp [histGet, histSet, List.find?_cons, hbeq, find?_key_filter store k k' h]

/-! ## Local authentication (`src/frontend/src/utils/auth.js`)

The auth module keeps a user list under the `face2phrase_users` key and an
auth session under `face2phrase_auth`; both are modelled structurally.
ISO timestamps are modelled as `Nat` milliseconds since the epoch. -/

/-- A stored user record (`auth.js:9-18`, `auth.js:69-78`). -/
structure StoredUser where
  id : String
  username : String
  password : String
  email : String
  fullName : String
  role : String
  createdAt : Nat
  lastLogin : Option Nat
deriving DecidableEq, Repr

/-- The projection of a user saved into the auth session (`auth.js:101-107`). -/
structure AuthUser where
  id : String
  username : String
  email : String
  fullName : String
  role : String
deriving DecidableEq, Repr

/-- The auth session record (`auth.js:100-110`). -/
structure AuthData where
  user : AuthUser
  loginTime : Nat
  expiresAt : Nat
deriving DecidableEq, Repr

/-- The localStorage state the auth module reads and writes: the
`face2phrase_users` list and the optional `face2phrase_auth` session. -/
structure AuthState where
  users : List StoredUser
  auth : Option AuthData
deriving DecidableEq, Repr

/-- The default admin user (`auth.js:9-18`); `createdAt` is the current time. -/
def defaultAdminUser (now : Nat) : StoredUser :=
  { id := "1", username := "admin", password := "admin123",
    email := "admin@face2phrase.com", fullName := "Administrator",
    role := "admin", createdAt := now, lastLogin := none }

/-- `saveUser` (`auth.js:35-52`): replace the first user with the same `id`,
else push at the end. -/
def saveUser (users : List StoredUser) (u : StoredUser) : List StoredUser :=
  match users.findIdx? (fun x => x.id == u.id) with
  | some i => users.set i u
  | none => users ++ [u]

/-- `initializeDefaultUser` (`auth.js:6-21`): seed the admin user when the
user list is empty. -/
def initializeDefaultUser (now : Nat) (st : AuthState) : AuthState :=
  if st.users.isEmpty then { st with users := saveUser st.users (defaultAdminUser now) }
  else st

/-- The user object placed in the auth session (`auth.js:101-107`). -/
def projectAuthUser (u : StoredUser) : AuthUser :=
  { id := u.id, username := u.username, email := u.email,
    fullName := u.fullName, role := u.role }

/-- 24 hours in milliseconds (`auth.js:109`). -/
def sessionDurationMs : Nat := 24 * 60 * 60 * 1000

/-- `loginUser` (`auth.js:88-120`): after `initializeDefaultUser`, find a user
matching both username and password; on success update `lastLogin`, store an
auth session expiring 24 hours from now, and return the projected user. -/
def loginUser (now : Nat) (username password : String) (st : AuthState) :
    AuthState × Option AuthUser :=
  let st0 := initializeDefaultUser now st
  match st0.users.find? (fun u => u.username == username && u.password == password) with
  | some u =>
      let u' := { u with lastLogin := some now }
      let authData : AuthData :=
        { user := projectAuthUser u', loginTime := now,
          expiresAt := now + sessionDurationMs }
      ({ users := saveUser st0.users u', auth := some authData }, some authData.user)
  | none => (st0, none)

/-- `logoutUser` (`auth.js:123-131`): remove the auth session. -/
def logoutUser (st : AuthState) : AuthState := { st with auth := none }

/-- `getCurrentUser` (`auth.js:134-155`): no session yields `null`; an expired
session (`now > expiresAt`) is removed and yields `null`; otherwise the stored
user object is returned. -/
def getCurrentUser (now : Nat) (st : AuthState) : AuthState × Option AuthUser :=
  match st.auth with
  | none => (st, none)
  | some a => if a.expiresAt < now then (logoutUser st, none) else (st, some a.user)

/-! ## AnalysisDashboard overview (`src/frontend/src/AnalysisDashboard.js`)

`renderOverview` (lines 30-97) consumes the `question_analyses` array of the
combined-analysis payload.  It inspects only the truthiness of the per-entry
`speech_analysis` and `video_analysis` fields (and the `question` text), so an
entry is modelled by those observations. -/

/-- One entry of `analysisData.question_analyses` as observed by
`renderOverview`: the question text and whether the `speech_analysis` /
`video_analysis` fields are present (truthy). -/
structure QuestionAnalysis where
  question : String
  speech_analysis : Bool
  video_analysis : Bool
deriving DecidableEq, Repr

/-- `totalQuestions` (`AnalysisDashboard.js:33`). -/
def totalQuestions (d : List QuestionAnalysis) : Nat := d.length

/-- `speechAnalyzed` (`AnalysisDashboard.js:34`). -/
def speechAnalyzed (d : List QuestionAnalysis) : Nat :=
  (d.filter (fun q => q.speech_analysis)).length

/-- `videoAnalyzed` (`AnalysisDashboard.js:35`). -/
def videoAnalyzed (d : List QuestionAnalysis) : Nat :=
  (d.filter (fun q => q.video_analysis)).length

/-- The `Analysis Complete` ratio computed at `AnalysisDashboard.js:93`
before scaling: `(speechAnalyzed + videoAnalyzed) / (totalQuestions * 2)`. -/
def analysisCompleteRatio (d : List QuestionAnalysis) : Rat :=
  ((speechAnalyzed d : Rat) + videoAnalyzed d) / (totalQuestions d * 2)

/-- The displayed percentage `Math.round(ratio * 100)` (`AnalysisDashboard.js:93`). -/
def analysisCompletePercent (d : List QuestionAnalysis) : Int :=
  round (analysisCompleteRatio d * 100)

/-- The per-question status row of the question list of the overview
(`AnalysisDashboard.js:102-139`): which of the two analyses render as
complete check marks for one question. -/
def questionStatusRow (q : QuestionAnalysis) : Bool × Bool :=
  (q.speech_analysis, q.video_analysis)

/-- The full question-status list rendered by `renderOverview`. -/
def questionStatusRows (d : List QuestionAnalysis) : List (Bool × Bool) :=
  d.map questionStatusRow

/-- Refinement target following the words of the claim: the number of questions
with both analyses present (`analyzed questions`) divided by the total number
of questions. -/
def claimedCompletionRatio (d : List QuestionAnalysis) : Rat :=
  ((d.filter (fun q => q.speech_analysis && q.video_analysis)).length : Rat) / d.length

/-- Second reading of the words of the claim, with an `analyzed` question being one
that has at least one analysis present. -/
def claimedCompletionRatioAny (d : List QuestionAnalysis) : Rat :=
  ((d.filter (fun q => q.speech_analysis || q.video_analysis)).length : Rat) / d.length

/-! ## Modelled analysis backend

The Python backend (FastAPI endpoints `/api/upload-video`, `/api/finalize`,
`/api/combined-analysis`, the acoustic and facial extractors, the report
synthesizer and the session aggregator) is not under `src/`; only its frontend
callers are.  The definitions below are modelled from the specification
(sections 3-7) and each carries a doc comment saying so. -/

/-- Modelled from the spec: the error taxonomy of section 7 for the backend
operations missing from `src/` (the spec does not name the error for an
upload to an already-Uploaded question; it is `invalidQuestionState` here). -/
inductive AnalysisError where
  | inputTooShort
  | uploadIncomplete
  | sessionNotFound
  | questionNotFound
  | invalidQuestionState
deriving DecidableEq, Repr

/-- Modelled from the spec: the Capability Registry (section 4.6), missing
from `src/`: boolean availability flags probed once at startup. -/
structure CapabilityRegistry where
  speechToText : Bool
  acousticLib : Bool
  facialLandmark : Bool
deriving DecidableEq, Repr

/-- Mean of a list of rationals; `0` for the empty list (`0 / 0 = 0` in `Rat`). -/
def ratMean (l : List Rat) : Rat := l.sum / l.length

/-- Population variance of a list of rationals; `0` for the empty list. -/
def ratVariance (l : List Rat) : Rat :=
  ((l.map (fun x => (x - ratMean l) ^ 2)).sum) / l.length

/-- Minimum of a list of rationals, `0` for the empty list. -/
def ratMinimum : List Rat → Rat
  | [] => 0
  | x :: xs => xs.foldl min x

/-- Maximum of a list of rationals, `0` for the empty list. -/
def ratMaximum : List Rat → Rat
  | [] => 0
  | x :: xs => xs.foldl max x

/-! ### Acoustic Feature Extractor (spec section 4.2), missing from `src/` -/

/-- Modelled from the spec: the acoustic feature set of the data model
(section 3).  Contours are included because the synthesizer bundles them into
the visualization payload (section 4.4).  Square roots are not rational, so
the stdev statistics are modelled by the variance (a strictly monotone proxy)
and RMS by the mean square. -/
structure AcousticFeatureSet where
  mean_pitch : Rat
  pitch_stdev : Rat
  pitch_min : Rat
  pitch_max : Rat
  voiced_ratio : Rat
  rms_mean : Rat
  rms_stdev : Rat
  dynamic_range : Rat
  centroid_mean : Rat
  rolloff_mean : Rat
  zcr_mean : Rat
  speech_rate : Rat
  pause_ratio : Rat
  pitch_contour : List Rat
  energy_contour : List Rat
  centroid_contour : List Rat
  insufficient_signal : Bool
deriving DecidableEq, Repr

/-- Modelled from the spec: the numeric DSP kernels of the missing extractor
(pitch tracking over a voiced frame, spectral centroid and rolloff from a
short-time spectrum).  Their numeric content is an implementation choice the
spec leaves open (section 9), so they are abstract parameters; the framing,
voicing and edge-case policy around them is modelled concretely. -/
structure DspKernels where
  pitchOf : List Rat → Rat
  centroidOf : List Rat → Rat
  rolloffOf : List Rat → Rat

/-- Modelled from the spec: 25 ms frame length (section 4.2), in samples. -/
def frameSamples (sampleRate : Nat) : Nat := sampleRate * 25 / 1000

/-- Modelled from the spec: 10 ms hop (section 4.2), in samples. -/
def hopSamples (sampleRate : Nat) : Nat := sampleRate * 10 / 1000

/-- Modelled from the spec: number of complete frames over a buffer of `n`
samples. -/
def numFrames (sampleRate n : Nat) : Nat :=
  if n < frameSamples sampleRate then 0
  else (n - frameSamples sampleRate) / hopSamples sampleRate + 1

/-- Modelled from the spec: frame the buffer with fixed length and hop
(section 4.2). -/
def audioFrames (sampleRate : Nat) (buf : List Rat) : List (List Rat) :=
  (List.range (numFrames sampleRate buf.length)).map
    (fun i => (buf.drop (i * hopSamples sampleRate)).take (frameSamples sampleRate))

/-- Mean-square energy of one frame (`0` for an empty frame). -/
def frameEnergy (f : List Rat) : Rat := (f.map (fun x => x * x)).sum / f.length

/-- Modelled from the spec: the voiced/unvoiced energy threshold; the numeric
value is an implementation choice documented here (section 9). -/
def energyVoicedThreshold : Rat := 1 / 1000

/-- Modelled from the spec: a frame is voiced when its energy exceeds the
threshold (section 4.2). -/
def isVoiced (f : List Rat) : Bool := energyVoicedThreshold < frameEnergy f

/-- Number of zero crossings of a frame (adjacent samples of opposite sign). -/
def zeroCrossings : List Rat → Nat
  | x :: y :: rest => (if x * y < 0 then 1 else 0) + zeroCrossings (y :: rest)
  | _ => 0

/-- Modelled from the spec: the defined neutral value all pitch statistics
take when the voiced-frame ratio is 0 (section 4.2). -/
def neutralPitch : Rat := 0

/-- Modelled from the spec: build the acoustic feature set from the framed
buffer.  If no frame is voiced (pure silence/noise) every pitch statistic is
the neutral value and `insufficient_signal` is set, with no error thrown
(section 4.2); otherwise the pitch contour is tracked over the voiced frames.
Speech-rate/pause segmentation is energy-based (the hysteresis refinement of
section 4.2 does not affect any claim and is modelled by the plain
threshold). -/
def acousticFromFrames (k : DspKernels) (fs : List (List Rat)) : AcousticFeatureSet :=
  if (fs.filter isVoiced).length = 0 then
    { mean_pitch := neutralPitch, pitch_stdev := neutralPitch,
      pitch_min := neutralPitch, pitch_max := neutralPitch,
      voiced_ratio := 0,
      rms_mean := ratMean (fs.map frameEnergy),
      rms_stdev := ratVariance (fs.map frameEnergy),
      dynamic_range := ratMaximum (fs.map frameEnergy) - ratMinimum (fs.map frameEnergy),
      centroid_mean := ratMean (fs.map k.centroidOf),
      rolloff_mean := ratMean (fs.map k.rolloffOf),
      zcr_mean := ratMean (fs.map (fun f => (zeroCrossings f : Rat) / f.length)),
      speech_rate := 0, pause_ratio := 1,
      pitch_contour := [], energy_contour := fs.map frameEnergy,
      centroid_contour := fs.map k.centroidOf,
      insufficient_signal := true }
  else
    { mean_pitch := ratMean ((fs.filter isVoiced).map k.pitchOf),
      pitch_stdev := ratVariance ((fs.filter isVoiced).map k.pitchOf),
      pitch_min := ratMinimum ((fs.filter isVoiced).map k.pitchOf),
      pitch_max := ratMaximum ((fs.filter isVoiced).map k.pitchOf),
      voiced_ratio := ((fs.filter isVoiced).length : Rat) / fs.length,
      rms_mean := ratMean (fs.map frameEnergy),
      rms_stdev := ratVariance (fs.map frameEnergy),
      dynamic_range := ratMaximum (fs.map frameEnergy) - ratMinimum (fs.map frameEnergy),
      centroid_mean := ratMean (fs.map k.centroidOf),
      rolloff_mean := ratMean (fs.map k.rolloffOf),
      zcr_mean := ratMean (fs.map (fun f => (zeroCrossings f : Rat) / f.length)),
      speech_rate := ((fs.filter isVoiced).length : Rat) / fs.length,
      pause_ratio := ((fs.length - (fs.filter isVoiced).length : Nat) : Rat) / fs.length,
      pitch_contour := (fs.filter isVoiced).map k.pitchOf,
      energy_contour := fs.map frameEnergy,
      centroid_contour := fs.map k.centroidOf,
      insufficient_signal := false }

/-- Modelled from the spec: the acoustic extractor entry point (section 4.2),
missing from `src/`.  A clip shorter than 1 second (fewer samples than the
sample rate) fails fast with `InputTooShort` before any framing is attempted;
otherwise the framed analysis runs and returns a feature set, never an
error. -/
def extractAcoustic (k : DspKernels) (sampleRate : Nat) (buf : List Rat) :
    Except AnalysisError AcousticFeatureSet :=
  if buf.length < sampleRate then .error .inputTooShort
  else .ok (acousticFromFrames k (audioFrames sampleRate buf))

/-! ### Facial Feature Extractor (spec section 4.3), missing from `src/` -/

/-- Modelled from the spec: one decoded video frame with its timestamp; the
decoded image content is an opaque handle consumed only by the detector. -/
structure VideoFrame where
  timestamp : Rat
  imageHandle : Nat
deriving DecidableEq, Repr

/-- Modelled from the spec: the landmark geometry of one detected face
(section 4.3): eye-aspect ratio, mouth-aspect ratio, eyebrow-to-eye distance
and the bounding-box center. -/
structure FaceGeometry where
  ear : Rat
  mar : Rat
  eyebrow : Rat
  centerX : Rat
  centerY : Rat
deriving DecidableEq, Repr

/-- Modelled from the spec: the facial feature set of the data model
(section 3), with the low-confidence mark of section 4.3. -/
structure FacialFeatureSet where
  face_detection_rate : Rat
  ear_series : List Rat
  mar_series : List Rat
  eyebrow_series : List Rat
  emotion_histogram : List (String × Nat)
  dominant_emotion : String
  engagement_score : Rat
  low_confidence : Bool
  degraded : Bool
deriving DecidableEq, Repr

/-- The fixed emotion label set, listed in the tie-breaking priority order of
section 4.3: focused > neutral > happy > surprised > sad > angry. -/
def emotionLabels : List String :=
  ["focused", "neutral", "happy", "surprised", "sad", "angry"]

/-- Modelled from the spec: the fixed rule table classifying one frame from
thresholds on the three ratios (section 4.3); the numeric thresholds are
implementation choices documented here (section 9). -/
def classifyEmotion (g : FaceGeometry) : String :=
  if 1 / 2 < g.mar then "happy"
  else if 1 / 4 < g.eyebrow ∧ 3 / 10 < g.ear then "surprised"
  else if g.ear < 3 / 20 then "sad"
  else if g.eyebrow < 3 / 20 ∧ g.mar < 1 / 10 then "angry"
  else if 1 / 4 < g.ear then "focused"
  else "neutral"

/-- Histogram of the per-frame emotion labels over the fixed label set. -/
def emotionHistogram (es : List String) : List (String × Nat) :=
  emotionLabels.map (fun e => (e, (es.filter (fun x => x == e)).length))

/-- Modelled from the spec: the histogram mode; since `emotionHistogram`
lists the labels in priority order and the fold only replaces the current
best on a strictly greater count, ties break toward the higher-priority
label (section 4.3). -/
def dominantEmotion (hist : List (String × Nat)) : String :=
  (hist.foldl (fun best p => if best.2 < p.2 then p else best) ("neutral", 0)).1

/-- Inverse-variance stability score in `(0, 1]`, used for gaze and
eye-aspect-ratio stability (section 4.3). -/
def stability (l : List Rat) : Rat := 1 / (1 + ratVariance l)

/-- Modelled from the spec: the real facial path (section 4.3): per-frame
detection, ratio series over the frames with a face, emotion histogram and
mode, engagement as an (equal-weight) combination of detection rate, gaze
stability and eye-aspect-ratio stability, low-confidence mark when the
detection rate is below one half. -/
def realFacial (detect : VideoFrame → Option FaceGeometry)
    (framesIn : List VideoFrame) : FacialFeatureSet :=
  { face_detection_rate := ((framesIn.filterMap detect).length : Rat) / framesIn.length,
    ear_series := (framesIn.filterMap detect).map (fun g => g.ear),
    mar_series := (framesIn.filterMap detect).map (fun g => g.mar),
    eyebrow_series := (framesIn.filterMap detect).map (fun g => g.eyebrow),
    emotion_histogram := emotionHistogram ((framesIn.filterMap detect).map classifyEmotion),
    dominant_emotion :=
      dominantEmotion (emotionHistogram ((framesIn.filterMap detect).map classifyEmotion)),
    engagement_score :=
      (((framesIn.filterMap detect).length : Rat) / framesIn.length
        + stability ((framesIn.filterMap detect).map (fun g => g.centerX))
        + stability ((framesIn.filterMap detect).map (fun g => g.ear))) / 3,
    low_confidence :=
      ((framesIn.filterMap detect).length : Rat) / framesIn.length < 1 / 2,
    degraded := false }

/-- Modelled from the spec: the fallback facial feature set returned when the
landmark backend is unavailable (section 4.3): `degraded = true`, dominant
emotion neutral, engagement 0, all ratio series empty, schema identical to
the real path. -/
def fallbackFacial : FacialFeatureSet :=
  { face_detection_rate := 0, ear_series := [], mar_series := [],
    eyebrow_series := [], emotion_histogram := emotionHistogram [],
    dominant_emotion := "neutral", engagement_score := 0,
    low_confidence := true, degraded := true }

/-- Modelled from the spec: the facial extractor entry point (section 4.3),
missing from `src/`: consult the Capability Registry and take the real or the
fallback path. -/
def extractFacial (detect : VideoFrame → Option FaceGeometry)
    (caps : CapabilityRegistry) (framesIn : List VideoFrame) : FacialFeatureSet :=
  if caps.facialLandmark then realFacial detect framesIn else fallbackFacial

/-! ### Report Synthesizer (spec section 4.4), missing from `src/` -/

/-- Modelled from the spec: one engine-agnostic named time series of the
visualization payload (section 4.4). -/
structure VisualizationSeries where
  label : String
  timestamps : List Rat
  values : List Rat
deriving DecidableEq, Repr

/-- Frame-hop timestamps (10 ms spacing) for a contour of `n` points. -/
def hopTimestamps (n : Nat) : List Rat :=
  (List.range n).map (fun i => (i : Rat) / 100)

/-- Modelled from the spec: one per-question report (section 3): both feature
sets, qualitative labels, deduplicated recommendations, the visualization
payload, and the propagated `degraded` / `insufficient_signal` flags. -/
structure QuestionReport where
  acoustic : AcousticFeatureSet
  video : FacialFeatureSet
  volume_consistency : String
  voice_clarity : String
  recommendations : List String
  degraded : Bool
  insufficient_signal : Bool
  series : List VisualizationSeries
deriving DecidableEq, Repr

/-- Remove duplicates keeping the first occurrence of each string. -/
def dedupFirst : List String → List String
  | [] => []
  | x :: xs => x :: dedupFirst (xs.filter (fun y => y != x))
termination_by l => l.length
decreasing_by simpa using Nat.lt_succ_of_le (List.length_filter_le _ xs)

/-- Modelled from the spec: the rule-based recommendation table
(section 4.4): each threshold breach appends a canned string; the thresholds
are implementation choices documented here (section 9). -/
def recommendationRules (a : AcousticFeatureSet) (v : FacialFeatureSet) : List String :=
  (if a.insufficient_signal then
    ["We could not detect enough voiced speech; move closer to the microphone."] else [])
  ++ (if 1 / 2 < a.pause_ratio then
    ["Try to reduce long pauses between phrases."] else [])
  ++ (if 1 / 10 < a.rms_stdev then
    ["Keep your speaking volume steadier."] else [])
  ++ (if v.degraded then
    ["Facial analysis was unavailable for this answer."] else [])
  ++ (if v.low_confidence then
    ["Keep your face visible to the camera."] else [])
  ++ (if v.engagement_score < 1 / 2 then
    ["Maintain eye contact with the camera."] else [])

/-- Modelled from the spec: the Report Synthesizer (section 4.4), a pure
function of the two feature sets; qualitative labels come from threshold
tables, duplicate recommendations are removed, and the `degraded` /
`insufficient_signal` flags of the inputs are propagated to the enclosing
report (section 3). -/
def synthesizeReport (a : AcousticFeatureSet) (v : FacialFeatureSet) : QuestionReport :=
  { acoustic := a, video := v,
    volume_consistency :=
      if a.rms_stdev < 1 / 100 then "high"
      else if a.rms_stdev < 1 / 10 then "medium" else "low",
    voice_clarity := if 1 / 2 < a.zcr_mean then "low" else "good",
    recommendations := dedupFirst (recommendationRules a v),
    degraded := v.degraded,
    insufficient_signal := a.insufficient_signal,
    series :=
      [ { label := "pitch_contour", timestamps := hopTimestamps a.pitch_contour.length,
          values := a.pitch_contour },
        { label := "energy_contour", timestamps := hopTimestamps a.energy_contour.length,
          values := a.energy_contour },
        { label := "spectral_centroid", timestamps := hopTimestamps a.centroid_contour.length,
          values := a.centroid_contour },
        { label := "eye_aspect_ratio", timestamps := hopTimestamps v.ear_series.length,
          values := v.ear_series } ] }

/-- Modelled from the spec: analysis of one question (extraction of both
feature sets followed by synthesis); an input-validation failure of the
acoustic extractor surfaces to the caller, everything else becomes a report
(section 7). -/
def analyzeQuestionMedia (k : DspKernels) (detect : VideoFrame → Option FaceGeometry)
    (caps : CapabilityRegistry) (sampleRate : Nat)
    (audio : List Rat) (framesIn : List VideoFrame) :
    Except AnalysisError QuestionReport :=
  (extractAcoustic k sampleRate audio).map
    (fun a => synthesizeReport a (extractFacial detect caps framesIn))

/-! ### Session Orchestrator (spec section 4.1), missing from `src/` -/

/-- Modelled from the spec: the question statuses of the data model
(section 3). -/
inductive QuestionStatus where
  | Pending
  | Recorded
  | Uploaded
  | Analyzed
  | TimedOut
deriving DecidableEq, Repr

/-- Modelled from the spec: the session statuses of the data model
(section 3). -/
inductive SessionStatus where
  | Created
  | InProgress
  | Finalizing
  | Complete
  | Failed
deriving DecidableEq, Repr

/-- Modelled from the spec: a Recording (section 3): audio buffer, video
frame sequence reference, duration in seconds, upload completeness flag. -/
structure Recording where
  duration : Rat
  audio : List Rat
  videoFrames : List VideoFrame
  uploadComplete : Bool
deriving DecidableEq, Repr

/-- Modelled from the spec: a Question (section 3): index, prompt, status,
the single active Recording and, once synthesized, its report. -/
structure InterviewQuestion where
  index : Nat
  prompt : String
  status : QuestionStatus
  recording : Option Recording
  report : Option QuestionReport
deriving DecidableEq, Repr

/-- Modelled from the spec: a Session (section 3). -/
structure InterviewSession where
  id : String
  candidateName : String
  questions : List InterviewQuestion
  status : SessionStatus
deriving DecidableEq, Repr

/-- Modelled from the spec: `recordAnswer` (section 4.1), the handler behind
`/api/upload-video`, missing from `src/`.  It returns the next session state
and an optional rejection: the question must exist and be Pending/Recorded,
the recording must last at least 1 second (otherwise `InputTooShort`); on
success the Recording is stored, the question becomes Uploaded, and a Created
session moves to InProgress.  On rejection the session — including every
stored recording — is returned unchanged. -/
def recordAnswer (s : InterviewSession) (qi : Nat) (r : Recording) :
    InterviewSession × Option AnalysisError :=
  match s.questions[qi]? with
  | none => (s, some .questionNotFound)
  | some q =>
      if q.status ≠ .Pending ∧ q.status ≠ .Recorded then
        (s, some .invalidQuestionState)
      else if r.duration < 1 then
        (s, some .inputTooShort)
      else
        ({ s with
            questions := s.questions.set qi
              { q with status := .Uploaded, recording := some r },
            status := if s.status = .Created then .InProgress else s.status },
          none)

/-- Modelled from the spec: the events driving the session state machine of
section 4.1. -/
inductive SessionEvent where
  | recordAnswerEvt
  | finalizeEvt
  | analysisFinishedEvt
  | sessionLostEvt
deriving DecidableEq, Repr

/-- Modelled from the spec: the session state machine of section 4.1:
Created moves to InProgress on the first `recordAnswer`, InProgress to
Finalizing on `finalizeSession`, Finalizing to Complete when every question
is Analyzed or TimedOut, and to Failed only when the session itself cannot be
located or created; any other event is rejected (`none`). -/
def sessionStep : SessionStatus → SessionEvent → Option SessionStatus
  | .Created, .recordAnswerEvt => some .InProgress
  | .InProgress, .recordAnswerEvt => some .InProgress
  | .InProgress, .finalizeEvt => some .Finalizing
  | .Finalizing, .analysisFinishedEvt => some .Complete
  | .Finalizing, .sessionLostEvt => some .Failed
  | _, _ => none

/-- Position of a status along the Created → InProgress → Finalizing →
terminal order (both terminals share the last rank). -/
def statusRank : SessionStatus → Nat
  | .Created => 0
  | .InProgress => 1
  | .Finalizing => 2
  | .Complete => 3
  | .Failed => 3

/-- Run the state machine over a list of events; a rejected event leaves the
status unchanged. -/
def runSession (es : List SessionEvent) (s : SessionStatus) : SessionStatus :=
  es.foldl (fun st e => (sessionStep st e).getD st) s

/-- Modelled from the spec: the fallback acoustic feature set used by a
fallback report (all statistics neutral, `insufficient_signal` set). -/
def fallbackAcoustic : AcousticFeatureSet :=
  acousticFromFrames ⟨fun _ => 0, fun _ => 0, fun _ => 0⟩ []

/-- Modelled from the spec: the fallback report attached to a TimedOut
question (section 4.1), schema-identical to a real report. -/
def fallbackReport : QuestionReport :=
  synthesizeReport fallbackAcoustic fallbackFacial

/-- Modelled from the spec: per-question finalization (section 4.1/5),
missing from `src/`.  The analysis job for a question is abstracted by
`analyze`, returning how long the job would run together with its report; the
orchestrator waits at most `timeout` on it.  An Uploaded question whose job
finishes within the timeout becomes Analyzed with its report; one whose job
exceeds the timeout is marked TimedOut with the fallback report instead of
failing anything; any other question is left untouched. -/
def finalizeQuestion (timeout : Nat)
    (analyze : InterviewQuestion → Nat × QuestionReport)
    (q : InterviewQuestion) : InterviewQuestion :=
  if q.status = .Uploaded then
    if (analyze q).1 ≤ timeout then
      { q with status := .Analyzed, report := some (analyze q).2 }
    else
      { q with status := .TimedOut, report := some fallbackReport }
  else q

/-- Modelled from the spec: `finalizeSession` (section 4.1), the handler
behind `/api/finalize`, missing from `src/`.  Every question is processed
with the per-question timeout (a total fold, so the operation itself always
terminates) and the session completes — it never fails because of timed-out
questions. -/
def finalizeSession (timeout : Nat)
    (analyze : InterviewQuestion → Nat × QuestionReport)
    (s : InterviewSession) : InterviewSession :=
  { s with questions := s.questions.map (finalizeQuestion timeout analyze),
           status := .Complete }

/-! ### Session Aggregator (spec section 4.5), missing from `src/` -/

/-- Modelled from the spec: the session-level report (section 3):
completion ratio, per-metric averages (degraded/insufficient entries are
excluded from the denominator and counted), ranked deduplicated
recommendations, overall confidence and the explicit no-data note. -/
structure SessionReport where
  completion_ratio : Rat
  mean_pitch_avg : Rat
  engagement_avg : Rat
  excluded_count : Nat
  recommendations : List String
  overall_confidence : Rat
  note : Option String
deriving DecidableEq, Repr

/-- Occurrences of a string in a list. -/
def countOcc (x : String) (l : List String) : Nat :=
  (l.filter (fun y => y == x)).length

/-- Insert into a list sorted by descending count; an element moves ahead
only of strictly less frequent ones, so ties keep insertion order. -/
def insertRanked (cnt : String → Nat) (x : String) : List String → List String
  | [] => [x]
  | y :: ys => if cnt y < cnt x then x :: y :: ys else y :: insertRanked cnt x ys

/-- Modelled from the spec: recommendation ranking (section 4.5): frequency
across questions, ties broken by first occurrence order. -/
def rankRecommendations (recss : List (List String)) : List String :=
  (dedupFirst recss.flatten).foldl
    (fun acc x => insertRanked (fun s => countOcc s recss.flatten) x acc) []

/-- Modelled from the spec: the explicit note a SessionReport carries when no
question produced usable data (section 4.5). -/
def noUsableDataNote : String := "No usable data exists for this session."

/-- Modelled from the spec: the Session Aggregator (section 4.5), missing
from `src/`.  Input: the per-question reports (absent for questions that were
never analyzed).  It is total: with zero analyzed questions it still yields a
report with completion ratio 0, empty recommendations and the no-data
note. -/
def aggregateSession (reports : List (Option QuestionReport)) : SessionReport :=
  { completion_ratio :=
      if reports.length = 0 then 0
      else ((reports.filterMap id).length : Rat) / reports.length,
    mean_pitch_avg :=
      ratMean (((reports.filterMap id).filter
        (fun r => !r.degraded && !r.insufficient_signal)).map
          (fun r => r.acoustic.mean_pitch)),
    engagement_avg :=
      ratMean (((reports.filterMap id).filter
        (fun r => !r.degraded && !r.insufficient_signal)).map
          (fun r => r.video.engagement_score)),
    excluded_count :=
      (reports.filterMap id).length -
        ((reports.filterMap id).filter
          (fun r => !r.degraded && !r.insufficient_signal)).length,
    recommendations :=
      rankRecommendations ((reports.filterMap id).map (fun r => r.recommendations)),
    overall_confidence :=
      if reports.length = 0 then 0
      else (((reports.filterMap id).filter
        (fun r => !r.degraded && !r.insufficient_signal)).length : Rat) / reports.length,
    note :=
      if (reports.filterMap id).length = 0 then some noUsableDataNote else none }

/-! ## Claims -/

/-- C10: finalizing an interview writes the completed session only under the
localStorage key `sessionHistory`, prepending it (newest first), and leaves
every other key — in particular `interview_history` — unchanged; the part_008
Dashboard reads its history and stats exclusively from `interview_history`,
so its interview list, total count and practice-time stats are unaffected. -/
theorem finalize_writes_only_sessionHistory (store : HistStore) (sd : SessionData) :
    histGet (finalizeSaveHistory store sd) "sessionHistory"
        = sd :: histGet store "sessionHistory"
    ∧ (∀ k, k ≠ "sessionHistory" →
        histGet (finalizeSaveHistory store sd) k = histGet store k)
    ∧ dashboardInterviewHistory (finalizeSaveHistory store sd)
        = dashboardInterviewHistory store
    ∧ dashboardTotalInterviews (finalizeSaveHistory store sd)
        = dashboardTotalInterviews store
    ∧ dashboardTimePracticed (finalizeSaveHistory store sd)
        = dashboardTimePracticed store := by
  have hother : ∀ k, k ≠ "sessionHistory" →
      histGet (finalizeSaveHistory store sd) k = histGet store k :=
    fun k hk => histGet_histSet_other store "sessionHistory" k _ hk
  have hdash : dashboardInterviewHistory (finalizeSaveHistory store sd)
      = dashboardInterviewHistory store :=
    hother "interview_history" (by decide)
  exact ⟨histGet_histSet_same store "sessionHistory" _, hother, hdash,
    by simp [dashboardTotalInterviews, hdash],
    by simp [dashboardTimePracticed, dashboardTotalInterviews, hdash]⟩

/-- A concrete session record used to instantiate the C10 theorem. -/
def sampleSessionData : SessionData :=
  { sessionId := "s1", position := "Software Engineer",
    timestamp := "2026-01-01T00:00:00.000Z", questions := 3, acousticData := [] }

/-- Witness for C10 at a concrete store and session record. -/
theorem finalize_writes_only_sessionHistory_witness :
    histGet (finalizeSaveHistory [("interview_history", [sampleSessionData])]
        sampleSessionData) "sessionHistory" = [sampleSessionData]
    ∧ histGet (finalizeSaveHistory [("interview_history", [sampleSessionData])]
        sampleSessionData) "interview_history" = [sampleSessionData] := by
  have h := finalize_writes_only_sessionHistory
    [("interview_history", [sampleSessionData])] sampleSessionData
  refine ⟨?_, ?_⟩
  · have h1 := h.1
    rw [h1]
    decide
  · exact (h.2.1 "interview_history" (by decide)).trans (by decide)

/-- C9: immediately after a successful `loginUser(username, password)` that
found the stored user `u`, `getCurrentUser` at any time within 24 hours of
the login returns a user object whose id, username, email, fullName and role
equal those of `u` (leaving the state untouched); at any time strictly past
the 24-hour expiry it returns `null` and removes the stored auth session. -/
theorem login_getCurrentUser_roundtrip
    (st : AuthState) (username password : String) (u : StoredUser) (t0 t : Nat)
    (hfind : (initializeDefaultUser t0 st).users.find?
        (fun v => v.username == username && v.password == password) = some u) :
    (loginUser t0 username password st).2
        = some ⟨u.id, u.username, u.email, u.fullName, u.role⟩
    ∧ (t ≤ t0 + sessionDurationMs →
        getCurrentUser t (loginUser t0 username password st).1
          = ((loginUser t0 username password st).1,
             some ⟨u.id, u.username, u.email, u.fullName, u.role⟩))
    ∧ (t0 + sessionDurationMs < t →
        getCurrentUser t (loginUser t0 username password st).1
          = ({ (loginUser t0 username password st).1 with auth := none }, none)) := by
  simp only [loginUser, hfind]
  refine ⟨rfl, fun ht => ?_, fun ht => ?_⟩
  · simp only [getCurrentUser]
    rw [if_neg (by simpa using Nat.not_lt.mpr ht)]
    rfl
  · simp only [getCurrentUser]
    rw [if_pos (by simpa using ht)]
    rfl

/-- A concrete stored user used to instantiate the C9 theorem. -/
def sampleStoredUser : StoredUser :=
  { id := "42", username := "kshitiz", password := "hunter2",
    email := "k@example.com", fullName := "Kshitiz Singhal", role := "user",
    createdAt := 0, lastLogin := none }

/-- Witness for C9 at a concrete state, login time 1000 and probe times
inside (2000) and one millisecond past (1000 + 24 h + 1) the window. -/
theorem login_getCurrentUser_roundtrip_witness :
    (loginUser 1000 "kshitiz" "hunter2" ⟨[sampleStoredUser], none⟩).2
        = some ⟨"42", "kshitiz", "k@example.com", "Kshitiz Singhal", "user"⟩
    ∧ getCurrentUser 2000 (loginUser 1000 "kshitiz" "hunter2" ⟨[sampleStoredUser], none⟩).1
        = ((loginUser 1000 "kshitiz" "hunter2" ⟨[sampleStoredUser], none⟩).1,
           some ⟨"42", "kshitiz", "k@example.com", "Kshitiz Singhal", "user"⟩)
    ∧ getCurrentUser (1000 + sessionDurationMs + 1)
        (loginUser 1000 "kshitiz" "hunter2" ⟨[sampleStoredUser], none⟩).1
        = ({ (loginUser 1000 "kshitiz" "hunter2" ⟨[sampleStoredUser], none⟩).1
              with auth := none }, none) :=
  ⟨(login_getCurrentUser_roundtrip ⟨[sampleStoredUser], none⟩ "kshitiz" "hunter2"
      sampleStoredUser 1000 2000 (by decide)).1,
   (login_getCurrentUser_roundtrip ⟨[sampleStoredUser], none⟩ "kshitiz" "hunter2"
      sampleStoredUser 1000 2000 (by decide)).2.1 (by decide),
   (login_getCurrentUser_roundtrip ⟨[sampleStoredUser], none⟩ "kshitiz" "hunter2"
      sampleStoredUser 1000 (1000 + sessionDurationMs + 1) (by decide)).2.2
      (by decide)⟩

/-- A combined-analysis entry with a speech analysis but no video analysis,
exhibiting the gap between the displayed ratio and analyzed/total. -/
def mixedOverviewEntry : QuestionAnalysis :=
  { question := "Tell me about yourself.", speech_analysis := true,
    video_analysis := false }

/-- C2 counterexample: on a one-question session whose entry has a speech
analysis but no video analysis, `renderOverview` displays the ratio 1/2,
while the number of analyzed questions divided by the total is 0 (reading
analyzed as both analyses present) or 1 (reading it as at least one present)
— under neither reading does the displayed ratio equal analyzed/total. -/
theorem overview_ratio_counterexample :
    analysisCompleteRatio [mixedOverviewEntry] = 1 / 2
    ∧ claimedCompletionRatio [mixedOverviewEntry] = 0
    ∧ claimedCompletionRatioAny [mixedOverviewEntry] = 1
    ∧ analysisCompleteRatio [mixedOverviewEntry]
        ≠ claimedCompletionRatio [mixedOverviewEntry]
    ∧ analysisCompleteRatio [mixedOverviewEntry]
        ≠ claimedCompletionRatioAny [mixedOverviewEntry] := by
  refine ⟨?_, ?_, ?_, ?_, ?_⟩ <;>
    norm_num [analysisCompleteRatio, claimedCompletionRatio, claimedCompletionRatioAny,
      speechAnalyzed, videoAnalyzed, totalQuestions, mixedOverviewEntry]

/-- Helper for the amended C2: when every entry has its speech analysis
present exactly when its video analysis is, both per-modality counts equal
the count of fully analyzed questions. -/
theorem analyzed_counts_eq (d : List QuestionAnalysis)
    (h : ∀ q ∈ d, q.speech_analysis = q.video_analysis) :
    speechAnalyzed d
        = (d.filter (fun q => q.speech_analysis && q.video_analysis)).length
    ∧ videoAnalyzed d
        = (d.filter (fun q => q.speech_analysis && q.video_analysis)).length := by
  induction d with
  | nil => simp [speechAnalyzed, videoAnalyzed]
  | cons q rest ih =>
      have hq := h q (by simp)
      obtain ⟨ihs, ihv⟩ := ih (fun x hx => h x (by simp [hx]))
      by_cases hs : q.speech_analysis
      · have hv : q.video_analysis = true := hq ▸ hs
        simp [speechAnalyzed, videoAnalyzed, List.filter_cons, hs, hv] at *
        exact ⟨ihs, ihv⟩
      · have hs' : q.speech_analysis = false := by simpa using hs
        have hv : q.video_analysis = false := hq ▸ hs'
        simpa [speechAnalyzed, videoAnalyzed, List.filter_cons, hs', hv] using ⟨ihs, ihv⟩

/-- C2 (amended): the overview's displayed completion ratio is
`(speechAnalyzed + videoAnalyzed) / (2 * totalQuestions)`; whenever each
question's two analyses are both present or both absent this equals the
number of analyzed questions divided by the total; in particular a 3-question
session where one question never received an upload (no analyses) and the
other two are fully analyzed yields exactly 2/3 (displayed as 67%), and the
per-question status rows of the two analyzed questions are unaffected. -/
theorem overview_ratio_amended (d : List QuestionAnalysis)
    (h : ∀ q ∈ d, q.speech_analysis = q.video_analysis)
    (q1 q2 q3 : QuestionAnalysis)
    (h1s : q1.speech_analysis = true) (h1v : q1.video_analysis = true)
    (h2s : q2.speech_analysis = true) (h2v : q2.video_analysis = true)
    (h3s : q3.speech_analysis = false) (h3v : q3.video_analysis = false) :
    analysisCompleteRatio d = claimedCompletionRatio d
    ∧ analysisCompleteRatio [q1, q2, q3] = 2 / 3
    ∧ analysisCompletePercent [q1, q2, q3] = 67
    ∧ questionStatusRows [q1, q2, q3]
        = [(true, true), (true, true), (false, false)] := by
  obtain ⟨ihs, ihv⟩ := analyzed_counts_eq d h
  refine ⟨?_, ?_, ?_, ?_⟩
  · unfold analysisCompleteRatio claimedCompletionRatio totalQuestions
    rw [ihs, ihv]
    set c := (d.filter (fun q => q.speech_analysis && q.video_analysis)).length
    have : ((c : Rat) + c) / (d.length * 2) = (2 * c) / (2 * d.length) := by
      ring_nf
    rw [this, mul_div_mul_left (c : Rat) (d.length : Rat) two_ne_zero]
  · norm_num [analysisCompleteRatio, speechAnalyzed, videoAnalyzed, totalQuestions,
      List.filter_cons, h1s, h1v, h2s, h2v, h3s, h3v]
  · have hr : analysisCompleteRatio [q1, q2, q3] = 2 / 3 := by
      norm_num [analysisCompleteRatio, speechAnalyzed, videoAnalyzed, totalQuestions,
        List.filter_cons, h1s, h1v, h2s, h2v, h3s, h3v]
    rw [analysisCompletePercent, hr]
    norm_num [round_eq]
  · simp [questionStatusRows, questionStatusRow, h1s, h1v, h2s, h2v, h3s, h3v]

/-- Witness for the amended C2 at concrete entries: two fully analyzed
questions and one with neither analysis. -/
theorem overview_ratio_amended_witness :
    analysisCompleteRatio [⟨"q", true, true⟩] = claimedCompletionRatio [⟨"q", true, true⟩]
    ∧ analysisCompleteRatio [⟨"a", true, true⟩, ⟨"b", true, true⟩, ⟨"c", false, false⟩]
        = 2 / 3
    ∧ analysisCompletePercent [⟨"a", true, true⟩, ⟨"b", true, true⟩, ⟨"c", false, false⟩]
        = 67
    ∧ questionStatusRows [⟨"a", true, true⟩, ⟨"b", true, true⟩, ⟨"c", false, false⟩]
        = [(true, true), (true, true), (false, false)] :=
  overview_ratio_amended [⟨"q", true, true⟩]
    (by intro q hq; simp at hq; rw [hq]) _ _ _ rfl rfl rfl rfl rfl rfl

/-- C3: a session with zero successfully analyzed questions still aggregates
to a valid SessionReport: the completion ratio is the defined number 0, the
recommendation list is empty, and the explicit no-usable-data note is set. -/
theorem aggregate_zero_analyzed_valid (reports : List (Option QuestionReport))
    (h : ∀ r ∈ reports, r = none) :
    (aggregateSession reports).completion_ratio = 0
    ∧ (aggregateSession reports).recommendations = []
    ∧ (aggregateSession reports).note = some noUsableDataNote := by
  have hfm : reports.filterMap id = [] := by
    rw [List.filterMap_eq_nil_iff]
    intro a ha
    simp [h a ha]
  refine ⟨?_, ?_, ?_⟩ <;>
    simp [aggregateSession, hfm, rankRecommendations, dedupFirst]

/-- Witness for C3 on a 3-question session where no question was analyzed. -/
theorem aggregate_zero_analyzed_valid_witness :
    (aggregateSession [none, none, none]).completion_ratio = 0
    ∧ (aggregateSession [none, none, none]).recommendations = []
    ∧ (aggregateSession [none, none, none]).note = some noUsableDataNote :=
  aggregate_zero_analyzed_valid [none, none, none] (by simp)

/-- C4: a silent buffer of at least one second (every sample 0) makes the
acoustic extractor return successfully (no thrown error) with
`insufficient_signal = true`, a voiced-frame ratio of 0, and every pitch
statistic equal to the defined neutral value — all fields are defined
rationals, never NaN or undefined. -/
theorem silent_audio_insufficient (k : DspKernels) (sampleRate : Nat)
    (buf : List Rat) (hlen : sampleRate ≤ buf.length) (hz : ∀ x ∈ buf, x = 0) :
    ∃ f, extractAcoustic k sampleRate buf = .ok f
      ∧ f.insufficient_signal = true
      ∧ f.mean_pitch = neutralPitch
      ∧ f.pitch_stdev = neutralPitch
      ∧ f.pitch_min = neutralPitch
      ∧ f.pitch_max = neutralPitch
      ∧ f.voiced_ratio = 0 := by
  have hfilter : (audioFrames sampleRate buf).filter isVoiced = [] := by
    rw [List.filter_eq_nil_iff]
    intro f hf
    simp only [audioFrames, List.mem_map, List.mem_range] at hf
    obtain ⟨i, _, rfl⟩ := hf
    have hzf : ∀ x ∈ (buf.drop (i * hopSamples sampleRate)).take (frameSamples sampleRate),
        x = (0 : Rat) :=
      fun x hx => hz x (List.mem_of_mem_drop (List.mem_of_mem_take hx))
    have hsum : (((buf.drop (i * hopSamples sampleRate)).take
        (frameSamples sampleRate)).map (fun x => x * x)).sum = 0 := by
      apply List.sum_eq_zero
      intro y hy
      obtain ⟨x, hx, rfl⟩ := List.mem_map.mp hy
      rw [hzf x hx]
      ring
    have hE : frameEnergy ((buf.drop (i * hopSamples sampleRate)).take
        (frameSamples sampleRate)) = 0 := by
      rw [frameEnergy, hsum, zero_div]
    simp [isVoiced, hE, energyVoicedThreshold]
  have hok : extractAcoustic k sampleRate buf
      = .ok (acousticFromFrames k (audioFrames sampleRate buf)) := by
    rw [extractAcoustic, if_neg (by omega)]
  refine ⟨acousticFromFrames k (audioFrames sampleRate buf), hok, ?_, ?_, ?_, ?_, ?_, ?_⟩ <;>
    simp [acousticFromFrames, hfilter]

/-- Witness for C4: one second of silence at a (tiny) sample rate of 2 Hz. -/
theorem silent_audio_insufficient_witness :
    ∃ f, extractAcoustic ⟨fun _ => 0, fun _ => 0, fun _ => 0⟩ 2
        ([0, 0] : List Rat) = .ok f
      ∧ f.insufficient_signal = true
      ∧ f.mean_pitch = neutralPitch
      ∧ f.pitch_stdev = neutralPitch
      ∧ f.pitch_min = neutralPitch
      ∧ f.pitch_max = neutralPitch
      ∧ f.voiced_ratio = 0 :=
  silent_audio_insufficient ⟨fun _ => 0, fun _ => 0, fun _ => 0⟩ 2
    ([0, 0] : List Rat) (by decide) (by decide)

/-- C1: a recording shorter than 1 second offered to a Pending/Recorded
question is rejected by `recordAnswer` with `InputTooShort`, the session —
including every stored recording and every question status — is unchanged
(so the recording is neither stored nor ever picked up for analysis), and
the acoustic extractor itself fails fast with `InputTooShort` on any
sub-second buffer before any framing is attempted. -/
theorem short_recording_rejected (s : InterviewSession) (qi : Nat)
    (r : Recording) (q : InterviewQuestion)
    (hq : s.questions[qi]? = some q)
    (hstatus : q.status = .Pending ∨ q.status = .Recorded)
    (hdur : r.duration < 1) :
    (recordAnswer s qi r).2 = some .inputTooShort
    ∧ (recordAnswer s qi r).1 = s
    ∧ (∀ k sampleRate (buf : List Rat), buf.length < sampleRate →
        extractAcoustic k sampleRate buf = .error .inputTooShort) := by
  have hcond : ¬(q.status ≠ .Pending ∧ q.status ≠ .Recorded) := by
    rcases hstatus with h | h <;> simp [h]
  have hred : recordAnswer s qi r = (s, some .inputTooShort) := by
    simp only [recordAnswer, hq]
    rw [if_neg hcond, if_pos hdur]
  exact ⟨by rw [hred], by rw [hred],
    fun k sampleRate buf hb => by rw [extractAcoustic, if_pos hb]⟩

/-- A concrete one-question session used to instantiate the orchestrator
claims. -/
def sampleSession : InterviewSession :=
  { id := "sess-1", candidateName := "Kshitiz",
    questions := [{ index := 0, prompt := "Tell me about yourself.",
                    status := .Pending, recording := none, report := none }],
    status := .Created }

/-- Witness for C1: a half-second recording offered to the Pending question
of the sample session. -/
theorem short_recording_rejected_witness :
    (recordAnswer sampleSession 0
        ⟨1 / 2, [0], [], true⟩).2 = some .inputTooShort
    ∧ (recordAnswer sampleSession 0 ⟨1 / 2, [0], [], true⟩).1 = sampleSession
    ∧ (∀ k sampleRate (buf : List Rat), buf.length < sampleRate →
        extractAcoustic k sampleRate buf = .error .inputTooShort) :=
  short_recording_rejected sampleSession 0 ⟨1 / 2, [0], [], true⟩
    { index := 0, prompt := "Tell me about yourself.",
      status := .Pending, recording := none, report := none }
    (by decide) (Or.inl rfl) (by norm_num)

/-- C5: an upload attempt to a question already marked Uploaded is rejected
(the question is no longer Pending/Recorded), and the session — in
particular the stored recording of that question — is unchanged. -/
theorem uploaded_recording_append_only (s : InterviewSession) (qi : Nat)
    (r : Recording) (q : InterviewQuestion)
    (hq : s.questions[qi]? = some q)
    (hst : q.status = .Uploaded) :
    (recordAnswer s qi r).2 = some .invalidQuestionState
    ∧ (recordAnswer s qi r).1 = s
    ∧ ((recordAnswer s qi r).1.questions[qi]?).map
        (fun x => x.recording) = some q.recording := by
  have hcond : q.status ≠ .Pending ∧ q.status ≠ .Recorded := by
    rw [hst]; exact ⟨by simp, by simp⟩
  have hred : recordAnswer s qi r = (s, some .invalidQuestionState) := by
    simp only [recordAnswer, hq]
    rw [if_pos hcond]
  exact ⟨by rw [hred], by rw [hred], by rw [hred, hq]; rfl⟩

/-- A concrete session whose single question is already Uploaded with a
stored recording. -/
def uploadedSession : InterviewSession :=
  { id := "sess-2", candidateName := "Kshitiz",
    questions := [{ index := 0, prompt := "Why this role?",
                    status := .Uploaded,
                    recording := some ⟨2, [0, 1], [], true⟩, report := none }],
    status := .InProgress }

/-- Witness for C5: a second upload aimed at the already-Uploaded question. -/
theorem uploaded_recording_append_only_witness :
    (recordAnswer uploadedSession 0 ⟨3, [1], [], true⟩).2
        = some .invalidQuestionState
    ∧ (recordAnswer uploadedSession 0 ⟨3, [1], [], true⟩).1 = uploadedSession
    ∧ ((recordAnswer uploadedSession 0 ⟨3, [1], [], true⟩).1.questions[0]?).map
        (fun x => x.recording) = some (some ⟨2, [0, 1], [], true⟩) :=
  uploaded_recording_append_only uploadedSession 0 ⟨3, [1], [], true⟩
    { index := 0, prompt := "Why this role?", status := .Uploaded,
      recording := some ⟨2, [0, 1], [], true⟩, report := none }
    (by decide) rfl

/-- Helper: one step of the session state machine never decreases the rank
along Created → InProgress → Finalizing → terminal. -/
theorem statusRank_le_step (s : SessionStatus) (e : SessionEvent) :
    statusRank s ≤ statusRank ((sessionStep s e).getD s) := by
  cases s <;> cases e <;> simp [sessionStep, statusRank]

/-- C6: every transition of the session state machine follows the order
Created → InProgress (on recordAnswer) → Finalizing (on finalizeSession) →
Complete or Failed, never skipping a state (the rank advances by at most
one), with InProgress-on-recordAnswer the only self-loop, Failed reached
only from Finalizing when the session cannot be located, both terminals
absorbing, and the rank monotone along every event trajectory. -/
theorem session_state_machine_order :
    (∀ s e s', sessionStep s e = some s' →
      (statusRank s ≤ statusRank s' ∧ statusRank s' ≤ statusRank s + 1)
      ∧ (s' = s → s = .InProgress ∧ e = .recordAnswerEvt)
      ∧ (s' = .Failed → s = .Finalizing ∧ e = .sessionLostEvt)
      ∧ (s' = .InProgress →
          (s = .Created ∨ s = .InProgress) ∧ e = .recordAnswerEvt)
      ∧ (s' = .Finalizing → s = .InProgress ∧ e = .finalizeEvt)
      ∧ (s' = .Complete → s = .Finalizing ∧ e = .analysisFinishedEvt))
    ∧ (∀ e, sessionStep .Complete e = none ∧ sessionStep .Failed e = none)
    ∧ (∀ es s, statusRank s ≤ statusRank (runSession es s)) := by
  refine ⟨?_, ?_, ?_⟩
  · intro s e s' h
    cases s <;> cases e <;>
      first
        | exact Option.noConfusion h
        | (injection h with h; subst h; decide)
  · intro e
    cases e <;> simp [sessionStep]
  · intro es
    induction es with
    | nil => intro s; simp [runSession]
    | cons e rest ih =>
        intro s
        have hstep := statusRank_le_step s e
        have htail := ih ((sessionStep s e).getD s)
        calc statusRank s ≤ statusRank ((sessionStep s e).getD s) := hstep
          _ ≤ statusRank (runSession rest ((sessionStep s e).getD s)) := htail
          _ = statusRank (runSession (e :: rest) s) := by simp [runSession]

/-- Witness for C6: the Created → InProgress transition on the first
recordAnswer, and rank monotonicity along the full happy-path trajectory. -/
theorem session_state_machine_order_witness :
    ((statusRank .Created ≤ statusRank .InProgress
        ∧ statusRank .InProgress ≤ statusRank .Created + 1)
      ∧ (SessionStatus.InProgress = .Created →
          SessionStatus.Created = .InProgress ∧ SessionEvent.recordAnswerEvt = .recordAnswerEvt)
      ∧ (SessionStatus.InProgress = .Failed →
          SessionStatus.Created = .Finalizing ∧ SessionEvent.recordAnswerEvt = .sessionLostEvt)
      ∧ (SessionStatus.InProgress = .InProgress →
          (SessionStatus.Created = .Created ∨ SessionStatus.Created = .InProgress)
            ∧ SessionEvent.recordAnswerEvt = .recordAnswerEvt)
      ∧ (SessionStatus.InProgress = .Finalizing →
          SessionStatus.Created = .InProgress ∧ SessionEvent.recordAnswerEvt = .finalizeEvt)
      ∧ (SessionStatus.InProgress = .Complete →
          SessionStatus.Created = .Finalizing
            ∧ SessionEvent.recordAnswerEvt = .analysisFinishedEvt))
    ∧ statusRank .Created ≤ statusRank (runSession
        [.recordAnswerEvt, .finalizeEvt, .analysisFinishedEvt] .Created) :=
  ⟨session_state_machine_order.1 .Created .recordAnswerEvt .InProgress rfl,
   session_state_machine_order.2.2
     [.recordAnswerEvt, .finalizeEvt, .analysisFinishedEvt] .Created⟩

/-- C7: `finalizeSession` is a total function applying the per-question
timeout to every question — it cannot block: the session always reaches
Complete (never Failed), every previously Uploaded question ends Analyzed
(analysis within the timeout) or TimedOut carrying the fallback report
(analysis exceeding the timeout), and non-Uploaded questions are untouched,
so a timeout never fails the rest of the session. -/
theorem finalize_applies_timeout (timeout : Nat)
    (analyze : InterviewQuestion → Nat × QuestionReport)
    (s : InterviewSession) :
    (finalizeSession timeout analyze s).status = .Complete
    ∧ (finalizeSession timeout analyze s).questions
        = s.questions.map (finalizeQuestion timeout analyze)
    ∧ (∀ q ∈ s.questions, q.status = .Uploaded →
        (timeout < (analyze q).1 →
          finalizeQuestion timeout analyze q
            = { q with status := .TimedOut, report := some fallbackReport })
        ∧ ((analyze q).1 ≤ timeout →
          finalizeQuestion timeout analyze q
            = { q with status := .Analyzed, report := some (analyze q).2 }))
    ∧ (∀ q ∈ s.questions,
        (finalizeQuestion timeout analyze q).status = .Analyzed
        ∨ (finalizeQuestion timeout analyze q).status = .TimedOut
        ∨ finalizeQuestion timeout analyze q = q) := by
  refine ⟨rfl, rfl, ?_, ?_⟩
  · intro q _ hup
    constructor
    · intro hto
      rw [finalizeQuestion, if_pos hup, if_neg (by omega)]
    · intro hin
      rw [finalizeQuestion, if_pos hup, if_pos hin]
  · intro q _
    by_cases hup : q.status = .Uploaded
    · by_cases hin : (analyze q).1 ≤ timeout
      · left; rw [finalizeQuestion, if_pos hup, if_pos hin]
      · right; left; rw [finalizeQuestion, if_pos hup, if_neg hin]
    · right; right; rw [finalizeQuestion, if_neg hup]

/-- A session with one Uploaded question, used to instantiate C7. -/
def finalizeSampleSession : InterviewSession :=
  { id := "sess-3", candidateName := "Kshitiz",
    questions := [{ index := 0, prompt := "Describe a challenge.",
                    status := .Uploaded,
                    recording := some ⟨2, [0, 1], [], true⟩, report := none }],
    status := .InProgress }

/-- Witness for C7: an analysis job of duration 5 against a timeout of 3 is
timed out with the fallback report, and the session still completes. -/
theorem finalize_applies_timeout_witness :
    (finalizeSession 3 (fun _ => (5, fallbackReport)) finalizeSampleSession).status
        = .Complete
    ∧ finalizeQuestion 3 (fun _ => (5, fallbackReport))
        { index := 0, prompt := "Describe a challenge.", status := .Uploaded,
          recording := some ⟨2, [0, 1], [], true⟩, report := none }
      = { index := 0, prompt := "Describe a challenge.", status := .TimedOut,
          recording := some ⟨2, [0, 1], [], true⟩,
          report := some fallbackReport } :=
  ⟨(finalize_applies_timeout 3 (fun _ => (5, fallbackReport))
      finalizeSampleSession).1,
   ((finalize_applies_timeout 3 (fun _ => (5, fallbackReport))
      finalizeSampleSession).2.2.1
      { index := 0, prompt := "Describe a challenge.", status := .Uploaded,
        recording := some ⟨2, [0, 1], [], true⟩, report := none }
      (by simp [finalizeSampleSession]) rfl).1 (by omega)⟩

/-- C8: the synthesizer propagates the `degraded` flag of the video feature
set and the `insufficient_signal` flag of the acoustic feature set to the
enclosing report; with the facial backend unavailable, a 3-question session
yields 3 reports, every successful report carries `video.degraded = true`
(the fallback facial set), its acoustic features are exactly what the
acoustic extractor alone produces, and they coincide with the acoustic
features obtained when the facial backend is available. -/
theorem degraded_flags_propagate (a : AcousticFeatureSet) (v : FacialFeatureSet)
    (k : DspKernels) (detect : VideoFrame → Option FaceGeometry)
    (capsDown capsUp : CapabilityRegistry) (sampleRate : Nat)
    (answers : List (List Rat × List VideoFrame))
    (hdown : capsDown.facialLandmark = false)
    (hlen : answers.length = 3) :
    (synthesizeReport a v).degraded = v.degraded
    ∧ (synthesizeReport a v).insufficient_signal = a.insufficient_signal
    ∧ (answers.map (fun p =>
        analyzeQuestionMedia k detect capsDown sampleRate p.1 p.2)).length = 3
    ∧ (∀ p ∈ answers, ∀ rep,
        analyzeQuestionMedia k detect capsDown sampleRate p.1 p.2 = .ok rep →
        rep.video.degraded = true ∧ rep.video = fallbackFacial
        ∧ extractAcoustic k sampleRate p.1 = .ok rep.acoustic)
    ∧ (∀ p ∈ answers, ∀ rep₁ rep₂,
        analyzeQuestionMedia k detect capsDown sampleRate p.1 p.2 = .ok rep₁ →
        analyzeQuestionMedia k detect capsUp sampleRate p.1 p.2 = .ok rep₂ →
        rep₁.acoustic = rep₂.acoustic) := by
  have hfb : extractFacial detect capsDown = fun _ => fallbackFacial := by
    funext framesIn
    rw [extractFacial, hdown]
    simp
  refine ⟨rfl, rfl, by simp [hlen], ?_, ?_⟩
  · intro p _ rep hrep
    rw [analyzeQuestionMedia, hfb] at hrep
    cases hE : extractAcoustic k sampleRate p.1 with
    | error e => rw [hE] at hrep; exact Except.noConfusion hrep
    | ok a' =>
        rw [hE] at hrep
        simp only [Except.map] at hrep
        cases hrep
        exact ⟨rfl, rfl, by simp [synthesizeReport]⟩
  · intro p _ rep₁ rep₂ h1 h2
    rw [analyzeQuestionMedia] at h1 h2
    cases hE : extractAcoustic k sampleRate p.1 with
    | error e =>
        rw [hE] at h1
        exact Except.noConfusion h1
    | ok a' =>
        rw [hE] at h1 h2
        simp only [Except.map] at h1 h2
        cases h1
        cases h2
        rfl

/-- Witness for C8: three one-second silent answers with the facial backend
down; the middle conjuncts are evaluated on that concrete session. -/
theorem degraded_flags_propagate_witness :
    (synthesizeReport fallbackAcoustic fallbackFacial).degraded
        = fallbackFacial.degraded
    ∧ (synthesizeReport fallbackAcoustic fallbackFacial).insufficient_signal
        = fallbackAcoustic.insufficient_signal
    ∧ (([(([0, 0] : List Rat), ([] : List VideoFrame)),
         ([0, 0], []), ([0, 0], [])]).map (fun p =>
        analyzeQuestionMedia ⟨fun _ => 0, fun _ => 0, fun _ => 0⟩ (fun _ => none)
          ⟨true, true, false⟩ 2 p.1 p.2)).length = 3
    ∧ (∀ p ∈ ([(([0, 0] : List Rat), ([] : List VideoFrame)),
         ([0, 0], []), ([0, 0], [])]), ∀ rep,
        analyzeQuestionMedia ⟨fun _ => 0, fun _ => 0, fun _ => 0⟩ (fun _ => none)
          ⟨true, true, false⟩ 2 p.1 p.2 = .ok rep →
        rep.video.degraded = true ∧ rep.video = fallbackFacial
        ∧ extractAcoustic ⟨fun _ => 0, fun _ => 0, fun _ => 0⟩ 2 p.1 = .ok rep.acoustic) :=
  ⟨(degraded_flags_propagate fallbackAcoustic fallbackFacial
      ⟨fun _ => 0, fun _ => 0, fun _ => 0⟩ (fun _ => none)
      ⟨true, true, false⟩ ⟨true, true, true⟩ 2
      [(([0, 0] : List Rat), ([] : List VideoFrame)), ([0, 0], []), ([0, 0], [])]
      rfl rfl).1,
   (degraded_flags_propagate fallbackAcoustic fallbackFacial
      ⟨fun _ => 0, fun _ => 0, fun _ => 0⟩ (fun _ => none)
      ⟨true, true, false⟩ ⟨true, true, true⟩ 2
      [(([0, 0] : List Rat), ([] : List VideoFrame)), ([0, 0], []), ([0, 0], [])]
      rfl rfl).2.1,
   (degraded_flags_propagate fallbackAcoustic fallbackFacial
      ⟨fun _ => 0, fun _ => 0, fun _ => 0⟩ (fun _ => none)
      ⟨true, true, false⟩ ⟨true, true, true⟩ 2
      [(([0, 0] : List Rat), ([] : List VideoFrame)), ([0, 0], []), ([0, 0], [])]
      rfl rfl).2.2.1,
   (degraded_flags_propagate fallbackAcoustic fallbackFacial
      ⟨fun _ => 0, fun _ => 0, fun _ => 0⟩ (fun _ => none)
      ⟨true, true, false⟩ ⟨true, true, true⟩ 2
      [(([0, 0] : List Rat), ([] : List VideoFrame)), ([0, 0], []), ([0, 0], [])]
      rfl rfl).2.2.2.1⟩

end Face2Phrase
